import Mathlib

/-!
Verification development for the attestation-level-manager helper scripts
(`validate_cpu_types.py` and `expected_measurements.py`).

The Python code is shallowly embedded: JSON values become an inductive
`Json` type, Python dicts become association lists with first-match lookup
(JSON objects produced by `json.load` have unique keys), the external
measurement tool becomes an oracle `List String → ToolResult`, and the
file system touched by `write_json` becomes an explicit `FsState`.
Pure helper functions are translated definition by definition from the
source; error-message strings are kept verbatim except that quote
characters around interpolated values are elided.
-/

namespace AlmanSpec

/-- JSON-like values as decoded by `json.load`.  Booleans, floats and
`null` do not occur in the catalogs, allowlists and records the claims
quantify over and are omitted from the embedding. -/
inductive Json where
  | str (s : String)
  | int (n : Int)
  | arr (xs : List Json)
  | obj (kvs : List (String × Json))

/-- Python dict lookup `d.get(k)` / `d[k]` on an association list
(first match; keys are unique in dicts decoded from JSON). -/
def dictGet (kvs : List (String × Json)) (k : String) : Option Json :=
  match kvs with
  | [] => none
  | (k0, v) :: rest => if k0 = k then some v else dictGet rest k

/-- Python `k in d`. -/
def dictHas (kvs : List (String × Json)) (k : String) : Bool :=
  (dictGet kvs k).isSome

/-- Python dict assignment `d[k] = v`: replace the existing binding in
place, or append a new one. -/
def dictInsert (kvs : List (String × Json)) (k : String) (v : Json) :
    List (String × Json) :=
  match kvs with
  | [] => [(k, v)]
  | (k0, v0) :: rest =>
    if k0 = k then (k0, v) :: rest else (k0, v0) :: dictInsert rest k v

/-- One character of `[0-9a-fA-F]`. -/
def isHexDigitChar (c : Char) : Bool :=
  (48 ≤ c.toNat && c.toNat ≤ 57) ||
  (97 ≤ c.toNat && c.toNat ≤ 102) ||
  (65 ≤ c.toNat && c.toNat ≤ 70)

/-- `HEX_RE = re.compile(r"^0x[0-9a-fA-F]+$")`, fullmatch on the string:
the character `0`, the character `x`, then one or more hex digits. -/
def hexMatch (s : String) : Bool :=
  match s.data with
  | c0 :: c1 :: rest =>
    c0 = Char.ofNat 48 && c1 = Char.ofNat 120 &&
      !rest.isEmpty && rest.all isHexDigitChar
  | _ => false

/-- Python `hex(n)` for a non-negative integer: `0x` followed by the
lowercase base-16 digits. -/
def pyHex (n : Nat) : String :=
  "0x" ++ String.mk (Nat.toDigits 16 n)

/-- Python `s.strip()`: drop whitespace from both ends (restricted to
the ASCII whitespace `Char.isWhitespace` recognizes). -/
def pyStrip (s : String) : String :=
  String.mk (((s.data.dropWhile Char.isWhitespace).reverse.dropWhile
    Char.isWhitespace).reverse)

/-- Python `s.lower()` (ASCII case mapping). -/
def pyLower (s : String) : String :=
  String.mk (s.data.map Char.toLower)

/-- The normalized CPU spec: the dicts
`{"kind": "type", ...}` / `{"kind": "sig", ...}` / `{"kind": "fms", ...}`
returned by `normalize_cpu_spec`, as a sum type. -/
inductive CpuSpec where
  | type (name : String)
  | sig (value : String)
  | fms (family model stepping : Int)
deriving DecidableEq

def emptyStringMsg : String := "cpu-types.json contains an empty string entry"

def sigIntMsg : String := "vcpu_sig integer must be non-negative"

def sigValueMsg : String :=
  "vcpu_sig must be a hex string like 0x8b10 (or non-negative int)"

def dictShapeMsg : String :=
  "cpu-types.json dict entries must be either \x7bfamily,model,stepping\x7d or \x7bvcpu_sig\x7d/ \x7bsig\x7d"

def entriesShapeMsg : String := "cpu-types.json entries must be strings or objects"

/-- `entry.get("vcpu_sig", entry.get("sig"))`: the `vcpu_sig` binding if
present, otherwise the `sig` binding.  Since `null` values do not occur,
this is `some` exactly when `"vcpu_sig" in entry or "sig" in entry`. -/
def sigKeyVal (kvs : List (String × Json)) : Option Json :=
  match dictGet kvs "vcpu_sig" with
  | some v => some v
  | none => dictGet kvs "sig"

/-- The signature branch of `normalize_cpu_spec` (source lines 91-99). -/
def normalize_sig_value (val : Json) : Except String CpuSpec :=
  match val with
  | .int n => if n < 0 then .error sigIntMsg else .ok (.sig (pyHex n.toNat))
  | .str s =>
    if hexMatch (pyStrip s) then .ok (.sig (pyLower (pyStrip s)))
    else .error sigValueMsg
  | _ => .error sigValueMsg

/-- One step of the family/model/stepping loop (source lines 107-111):
`isinstance(v, int)` first, then `v < 0`. -/
def checkFmsField (k : String) (v : Option Json) : Except String Int :=
  match v with
  | some (.int n) =>
    if n < 0 then .error (k ++ " must be non-negative") else .ok n
  | _ => .error (k ++ " must be an int")

/-- The family/model/stepping branch of `normalize_cpu_spec`
(source lines 102-112). -/
def checkFms (kvs : List (String × Json)) : Except String CpuSpec := do
  let f ← checkFmsField "family" (dictGet kvs "family")
  let m ← checkFmsField "model" (dictGet kvs "model")
  let st ← checkFmsField "stepping" (dictGet kvs "stepping")
  return CpuSpec.fms f m st

/-- `normalize_cpu_spec` from `validate_cpu_types.py` (lines 70-116). -/
def normalize_cpu_spec (entry : Json) : Except String CpuSpec :=
  match entry with
  | .str s =>
    let t := pyStrip s
    if t = "" then .error emptyStringMsg
    else if hexMatch t then .ok (.sig (pyLower t))
    else .ok (.type t)
  | .obj kvs =>
    match sigKeyVal kvs with
    | some val => normalize_sig_value val
    | none =>
      if dictHas kvs "family" && dictHas kvs "model" && dictHas kvs "stepping" then
        checkFms kvs
      else .error dictShapeMsg
  | _ => .error entriesShapeMsg

/-- `spec_id` from `validate_cpu_types.py` (lines 118-126). -/
def spec_id (spec : CpuSpec) : String :=
  match spec with
  | .type n => "type:" ++ n
  | .sig s => "sig:" ++ s
  | .fms f m st =>
    "fms:" ++ toString f ++ ":" ++ toString m ++ ":" ++ toString st

/-- `spec_id_human` from `expected_measurements.py` (lines 65-73). -/
def spec_id_human (spec : CpuSpec) : String :=
  match spec with
  | .type n => n
  | .sig s => "vcpu-sig=" ++ s
  | .fms f m st =>
    "vcpu-family=" ++ toString f ++ ",vcpu-model=" ++ toString m ++
      ",vcpu-stepping=" ++ toString st

def dupSpecMsg (sid : String) : String :=
  "cpu-types.json contains duplicate cpu specs (not allowed): " ++ sid

/-- The loop of `load_cpu_specs` in `expected_measurements.py`
(lines 80-89): normalize each entry, fail fast on a duplicate
`spec_id`, accumulate the specs in order. -/
def load_cpu_specs_loop (entries : List Json) (seen : List String)
    (acc : List CpuSpec) : Except String (List CpuSpec) :=
  match entries with
  | [] => .ok acc.reverse
  | e :: rest => do
    let spec ← normalize_cpu_spec e
    let sid := spec_id spec
    if sid ∈ seen then .error (dupSpecMsg sid)
    else load_cpu_specs_loop rest (sid :: seen) (spec :: acc)

def cpuTypesListMsg : String := "CPU types JSON must be a non-empty list"

/-- `load_cpu_specs` from `expected_measurements.py` (lines 75-89).
The path interpolated into the non-list error message is elided. -/
def load_cpu_specs (data : Json) : Except String (List CpuSpec) :=
  match data with
  | .arr entries =>
    if entries.isEmpty then .error cpuTypesListMsg
    else load_cpu_specs_loop entries [] []
  | _ => .error cpuTypesListMsg

def legalListMsg : String :=
  "legal-cpu-types.json must be a non-empty JSON list of strings"

def legalBadMsg : String :=
  "legal-cpu-types.json contains invalid entries (expect non-empty strings)"

/-- An allowlist entry is bad when it is not a string or is empty after
stripping (`not isinstance(v, str) or not v.strip()`). -/
def badLegalEntry : Json → Bool
  | .str s => pyStrip s = ""
  | _ => true

def jsonStrOrEmpty : Json → String
  | .str s => s
  | _ => ""

/-- The dedup loop of `load_legal_cpu_types` (lines 60-67): strip each
entry, keep the first occurrence of each stripped value.  All entries
are strings at this point (the bad-entry check already passed). -/
def dedupTrim : List Json → List String → List String
  | [], _ => []
  | v :: rest, seen =>
    let t := pyStrip (jsonStrOrEmpty v)
    if t ∈ seen then dedupTrim rest seen else t :: dedupTrim rest (t :: seen)

/-- `load_legal_cpu_types` from `validate_cpu_types.py` (lines 53-68). -/
def load_legal_cpu_types (data : Json) : Except String (List String) :=
  match data with
  | .arr entries =>
    if entries.isEmpty then .error legalListMsg
    else if entries.any badLegalEntry then .error legalBadMsg
    else .ok (dedupTrim entries [])
  | _ => .error legalListMsg

def illegalTypeMsg (t : String) : String :=
  "Illegal cpu type string in cpu-types.json: " ++ t ++
    " (not present in legal-cpu-types.json)"

/-- The per-entry loop of `validate_cpu_types.main` (lines 145-155):
normalize, fail on a duplicate `spec_id`, and for `type` specs fail
when the name is not in the allowlist set. -/
def validate_loop (legal : List String) :
    List Json → List String → Except String Unit
  | [], _ => .ok ()
  | e :: rest, seen => do
    let spec ← normalize_cpu_spec e
    let sid := spec_id spec
    if sid ∈ seen then .error (dupSpecMsg sid)
    else
      match spec with
      | .type t =>
        if t ∈ legal then validate_loop legal rest (sid :: seen)
        else .error (illegalTypeMsg t)
      | _ => validate_loop legal rest (sid :: seen)

def cpuTypesMainListMsg : String := "cpu-types.json must be a non-empty JSON list"

/-- `validate_cpu_types.main` (lines 135-157) after argument parsing,
over the two decoded JSON documents: the catalog non-empty-list check,
then the allowlist load, then the validation loop. -/
def validate_cpu_types_main (cpu_types legal_json : Json) :
    Except String Unit :=
  match cpu_types with
  | .arr entries =>
    if entries.isEmpty then .error cpuTypesMainListMsg
    else do
      let legal ← load_legal_cpu_types legal_json
      validate_loop legal entries []
  | _ => .error cpuTypesMainListMsg

/-! ### The measurement invoker (`expected_measurements.py`) -/

/-- Outcome of one `subprocess.run` of the external tool. -/
structure ToolResult where
  returncode : Int
  stdout : String
  stderr : String

/-- The fixed head of the `sev-snp-measure` command
(source lines 97-110); `pyexe` stands for `sys.executable`. -/
def baseCmd (pyexe measure_py : String) (vcpus : Int) (ovmf : String) :
    List String :=
  [pyexe, measure_py, "--mode", "snp", "--vmm-type", "QEMU",
   "--vcpus", toString vcpus, "--ovmf", ovmf, "--output-format", "hex"]

/-- The vCPU selector argument group (source lines 113-125):
exactly one of the three forms. -/
def selectorArgs (spec : CpuSpec) : List String :=
  match spec with
  | .type n => ["--vcpu-type", n]
  | .sig s => ["--vcpu-sig", s]
  | .fms f m st =>
    ["--vcpu-family", toString f, "--vcpu-model", toString m,
     "--vcpu-stepping", toString st]

def alRequireMsg : String := "AL3/AL4 require kernel and initrd paths."

def alUnsupportedMsg (al : Int) : String :=
  "Unsupported AL=" ++ toString al ++ " (expected 2|3|4)."

/-- Command construction of `run_measure` (source lines 97-138): base
command plus selector, then the attestation-level dispatch.  A `die`
(uncaught `SystemExit`) is an `error`. -/
def build_measure_cmd (pyexe measure_py : String) (al vcpus : Int)
    (spec : CpuSpec) (ovmf kernel initrd append : String) :
    Except String (List String) :=
  let cmd := baseCmd pyexe measure_py vcpus ovmf ++ selectorArgs spec
  if al = 2 then .ok cmd
  else if al = 3 ∨ al = 4 then
    if kernel = "" ∨ initrd = "" then .error alRequireMsg
    else .ok (cmd ++ ["--kernel", kernel, "--initrd", initrd, "--append", append])
  else .error (alUnsupportedMsg al)

def lbraceStr : String := String.singleton (Char.ofNat 123)

def rbraceStr : String := String.singleton (Char.ofNat 125)

def squoStr : String := String.singleton (Char.ofNat 39)

def pyStrRepr (s : String) : String := squoStr ++ s ++ squoStr

/-- Python `repr` of the normalized-spec dict interpolated into the
`RuntimeError` message (keys in insertion order, string values in
single quotes). -/
def pyDictRepr : CpuSpec → String
  | .type n =>
    lbraceStr ++ pyStrRepr "kind" ++ ": " ++ pyStrRepr "type" ++ ", " ++
      pyStrRepr "type" ++ ": " ++ pyStrRepr n ++ rbraceStr
  | .sig s =>
    lbraceStr ++ pyStrRepr "kind" ++ ": " ++ pyStrRepr "sig" ++ ", " ++
      pyStrRepr "sig" ++ ": " ++ pyStrRepr s ++ rbraceStr
  | .fms f m st =>
    lbraceStr ++ pyStrRepr "kind" ++ ": " ++ pyStrRepr "fms" ++ ", " ++
      pyStrRepr "family" ++ ": " ++ toString f ++ ", " ++
      pyStrRepr "model" ++ ": " ++ toString m ++ ", " ++
      pyStrRepr "stepping" ++ ": " ++ toString st ++ rbraceStr

/-- The `RuntimeError` message of `run_measure` (lines 142-144). -/
def measureFailMsg (al : Int) (spec : CpuSpec) (rc : Int) (stderr : String) :
    String :=
  "sev-snp-measure.py failed for al=" ++ toString al ++ " spec=" ++
    pyDictRepr spec ++ " rc=" ++ toString rc ++ "\nSTDERR:\n" ++ stderr

/-- What one call of `run_measure` does: either it `die`s before any
subprocess is started (uncaught `SystemExit`, aborting the whole run),
or it launches exactly one command whose outcome is the stripped stdout
on exit code 0 and a `RuntimeError` message otherwise (the
`RuntimeError` is caught by `except Exception` in `main`). -/
inductive RunStep where
  | fatal (msg : String)
  | invoked (cmd : List String) (outcome : Except String String)

/-- `run_measure` (lines 92-145) against an oracle modelling the
external tool. -/
def run_measure (oracle : List String → ToolResult)
    (pyexe measure_py : String) (al vcpus : Int) (spec : CpuSpec)
    (ovmf kernel initrd append : String) : RunStep :=
  match build_measure_cmd pyexe measure_py al vcpus spec ovmf kernel initrd append with
  | .error m => .fatal m
  | .ok cmd =>
    let p := oracle cmd
    if p.returncode = 0 then .invoked cmd (.ok (pyStrip p.stdout))
    else .invoked cmd (.error (measureFailMsg al spec p.returncode p.stderr))

/-! ### The record store (`expected_measurements.py`) -/

/-- `owned_keys` of `merge_vm_record_strict` (source lines 186-201). -/
def owned_keys : List String :=
  ["timestamp_utc", "mode", "vmm_type", "al", "vcpus", "ovmf", "kernel",
   "initrd", "append", "cpu_types_config", "cpu_types", "all", "errors",
   "measurements"]

/-- The body of the `for k in owned_keys` loop (lines 202-204). -/
def mergeStep (update : List (String × Json)) (merged : List (String × Json))
    (k : String) : List (String × Json) :=
  match dictGet update k with
  | some v => dictInsert merged k v
  | none => merged

/-- `merge_vm_record_strict` (lines 173-206): copy the existing record
(a non-dict existing value is replaced by the empty dict), then
overwrite each owned key present in the update. -/
def merge_vm_record_strict (existing : Json) (update : List (String × Json)) :
    List (String × Json) :=
  let e := match existing with
    | .obj kvs => kvs
    | _ => []
  owned_keys.foldl (mergeStep update) e

/-- `load_original` (lines 162-170): a missing, unreadable or
non-object store file is treated as the empty document. -/
def load_original (fileContents : Option Json) : List (String × Json) :=
  match fileContents with
  | some (.obj kvs) => kvs
  | _ => []

/-- Convert a normalized spec back to the JSON dict stored in the
record (`cpu_types` snapshot and `measurements[label]["cpu_spec"]`). -/
def cpuSpecToJson : CpuSpec → Json
  | .type n => .obj [("kind", .str "type"), ("type", .str n)]
  | .sig s => .obj [("kind", .str "sig"), ("sig", .str s)]
  | .fms f m st =>
    .obj [("kind", .str "fms"), ("family", .int f), ("model", .int m),
          ("stepping", .int st)]

/-- The measurement loop of `main` (lines 257-267), returning the
`measurements` and `errors` dicts on normal completion, or the `die`
message when a `SystemExit` escapes the `except Exception` handler;
the second component lists every external-tool command issued. -/
def mainLoop (oracle : List String → ToolResult) (pyexe measure_py : String)
    (al vcpus : Int) (ovmf kernel initrd append : String) :
    List CpuSpec → List (String × Json) → List (String × Json) →
    List (List String) →
    Except String (List (String × Json) × List (String × Json)) ×
      List (List String)
  | [], meas, errs, invs => (.ok (meas, errs), invs)
  | spec :: rest, meas, errs, invs =>
    match run_measure oracle pyexe measure_py al vcpus spec ovmf kernel initrd append with
    | .fatal msg => (.error msg, invs)
    | .invoked cmd (.ok m) =>
      mainLoop oracle pyexe measure_py al vcpus ovmf kernel initrd append rest
        (dictInsert meas (spec_id_human spec)
          (.obj [("cpu_spec", cpuSpecToJson spec), ("measurement_hex", .str m)]))
        errs (invs ++ [cmd])
    | .invoked cmd (.error e) =>
      mainLoop oracle pyexe measure_py al vcpus ovmf kernel initrd append rest
        meas (dictInsert errs (spec_id_human spec) (.str e)) (invs ++ [cmd])

/-- The `update_record` dict built in `main` (lines 269-283).
`timestamp` stands for the `time.strftime` result and `types_path_abs`
for `os.path.abspath(types_path)`. -/
def update_record (al vcpus : Int) (ovmf kernel initrd append : String)
    (types_path_abs timestamp : String) (specs : List CpuSpec)
    (meas errs : List (String × Json)) : List (String × Json) :=
  [("timestamp_utc", .str timestamp), ("mode", .str "snp"),
   ("vmm_type", .str "QEMU"), ("al", .int al), ("vcpus", .int vcpus),
   ("ovmf", .str ovmf), ("kernel", .str kernel), ("initrd", .str initrd),
   ("append", .str append), ("cpu_types_config", .str types_path_abs),
   ("cpu_types", .arr (specs.map cpuSpecToJson)),
   ("measurements", .obj meas), ("errors", .obj errs)]

/-- Observable result of one run of `expected_measurements.main`:
process exit code, every external-tool command issued, the in-memory
`measurements` and `errors` dicts (absent when the run aborted before
the loop finished), and the document handed to `write_json` (absent
when the run aborted before persistence). -/
structure MainResult where
  exitCode : Int
  invocations : List (List String)
  measurements : Option (List (String × Json))
  errors : Option (List (String × Json))
  persisted : Option (List (String × Json))

/-- `expected_measurements.main` (lines 235-300) after argument
parsing.  `out_json_contents` is the decoded contents of the existing
store file (`none` when missing or unreadable); an uncaught
`SystemExit` from `die` yields exit code 2. -/
def expected_measurements_main (oracle : List String → ToolResult)
    (pyexe : String) (out_json_contents : Option Json) (al : Int)
    (vm_title ovmf kernel initrd append : String) (vcpus : Int)
    (types_json : Json) (types_path_abs measure_py timestamp : String) :
    MainResult :=
  match load_cpu_specs types_json with
  | .error _ =>
    { exitCode := 2, invocations := [], measurements := none,
      errors := none, persisted := none }
  | .ok specs =>
    match mainLoop oracle pyexe measure_py al vcpus ovmf kernel initrd append
        specs [] [] [] with
    | (.error _, invs) =>
      { exitCode := 2, invocations := invs, measurements := none,
        errors := none, persisted := none }
    | (.ok (meas, errs), invs) =>
      let upd := update_record al vcpus ovmf kernel initrd append
        types_path_abs timestamp specs meas errs
      let original := load_original out_json_contents
      let existing := (dictGet original vm_title).getD (.obj [])
      let doc := dictInsert original vm_title
        (.obj (merge_vm_record_strict existing upd))
      { exitCode := 0, invocations := invs, measurements := some meas,
        errors := some errs, persisted := some doc }

/-! ### `write_json` (lines 209-232) over an explicit file system -/

/-- Which operation inside the `try` block of `write_json` raises, if
any: `tempfile.mkstemp`, the `json.dump` into the temporary file, or
`os.replace`. -/
inductive WriteFailure where
  | noFail
  | atMkstemp
  | atDump
  | atReplace
deriving DecidableEq

/-- The two files `write_json` touches: the target path and the
temporary file created next to it (`none` = the file does not exist). -/
structure FsState where
  target : Option String
  tmp : Option String
deriving DecidableEq

structure WriteOutcome where
  fs : FsState
  raised : Bool
deriving DecidableEq

/-- `write_json` (lines 209-232) stepped through its `try`/`finally`:

* `atMkstemp`: the exception propagates while `fd` and `tmp_path` are
  still `None`, so the `finally` block does nothing;
* `atDump`: the temporary file exists holding whatever bytes
  (`halfWritten`) `json.dump` got out before raising; `tmp_path` is
  still set, so the `finally` block unlinks it;
* `atReplace`: the fully dumped temporary file is unlinked by the
  `finally` block and the target is untouched;
* `noFail`: `os.replace` atomically renames the temporary file onto
  the target and `tmp_path` is cleared before the `finally` block. -/
def write_json (orig : Option String) (serialized halfWritten : String)
    (failAt : WriteFailure) : WriteOutcome :=
  let fs0 : FsState := { target := orig, tmp := none }
  match failAt with
  | .atMkstemp => { fs := fs0, raised := true }
  | .atDump =>
    let fs1 : FsState := { fs0 with tmp := some halfWritten }
    { fs := { fs1 with tmp := none }, raised := true }
  | .atReplace =>
    let fs1 : FsState := { fs0 with tmp := some serialized }
    { fs := { fs1 with tmp := none }, raised := true }
  | .noFail =>
    let fs1 : FsState := { fs0 with tmp := some serialized }
    { fs := { target := fs1.tmp, tmp := none }, raised := false }

/-! ### Specification-side definitions used to state the claims -/

/-- The first identity string that repeats an earlier one (the loop's
`seen` set made explicit).  `firstDup ids [] = some sid` iff the
catalog contains a duplicate, and `sid` is the identity at the first
duplicate encountered. -/
def firstDup : List String → List String → Option String
  | [], _ => none
  | x :: rest, seen =>
    if x ∈ seen then some x else firstDup rest (x :: seen)

/-- Normalize every entry and return the identity strings, failing on
the first normalization error. -/
def normIds : List Json → Except String (List String)
  | [] => .ok []
  | e :: rest => do
    let sp ← normalize_cpu_spec e
    let ids ← normIds rest
    return spec_id sp :: ids

/-- Normalize every entry, failing on the first normalization error. -/
def normSpecs : List Json → Except String (List CpuSpec)
  | [] => .ok []
  | e :: rest => do
    let sp ← normalize_cpu_spec e
    let sps ← normSpecs rest
    return sp :: sps

/-- The owned field-set as listed in spec section 3 (timestamp,
attestation level, vCPU count, firmware/kernel/initrd/cmdline paths,
CPU catalog snapshot, catalog source path, success map, error map),
transcribed to the record's JSON keys.  This follows the
specification's words, for comparison with the source's
`owned_keys`. -/
def spec3_owned_keys : List String :=
  ["timestamp_utc", "al", "vcpus", "ovmf", "kernel", "initrd", "append",
   "cpu_types", "cpu_types_config", "measurements", "errors"]

/-- The full command issued for one spec when command construction
succeeds (attestation level 2, or 3/4 with kernel and initrd given). -/
def fullCmd (pyexe measure_py : String) (al vcpus : Int) (spec : CpuSpec)
    (ovmf kernel initrd append : String) : List String :=
  baseCmd pyexe measure_py vcpus ovmf ++ selectorArgs spec ++
    (if al = 2 then []
     else ["--kernel", kernel, "--initrd", initrd, "--append", append])

/-- Functional description of the measurement loop when no `die` can
fire: fold over the catalog, inserting into `measurements` on exit
code 0 and into `errors` otherwise. -/
def collectOutcomes (oracle : List String → ToolResult)
    (pyexe measure_py : String) (al vcpus : Int)
    (ovmf kernel initrd append : String) :
    List CpuSpec → List (String × Json) × List (String × Json) →
    List (String × Json) × List (String × Json)
  | [], acc => acc
  | spec :: rest, (meas, errs) =>
    let p := oracle (fullCmd pyexe measure_py al vcpus spec ovmf kernel initrd append)
    if p.returncode = 0 then
      collectOutcomes oracle pyexe measure_py al vcpus ovmf kernel initrd append rest
        (dictInsert meas (spec_id_human spec)
          (.obj [("cpu_spec", cpuSpecToJson spec),
                 ("measurement_hex", .str (pyStrip p.stdout))]), errs)
    else
      collectOutcomes oracle pyexe measure_py al vcpus ovmf kernel initrd append rest
        (meas, dictInsert errs (spec_id_human spec)
          (.str (measureFailMsg al spec p.returncode p.stderr)))

/-! ## Association-list lemmas -/

theorem dictGet_insert_self (m : List (String × Json)) (k : String) (v : Json) :
    dictGet (dictInsert m k v) k = some v := by
  induction m with
  | nil => simp [dictInsert, dictGet]
  | cons hd tl ih =>
    obtain ⟨k0, v0⟩ := hd
    by_cases h : k0 = k
    · subst h
      simp [dictInsert, dictGet]
    · simp [dictInsert, dictGet, h, ih]

theorem dictGet_insert_ne (m : List (String × Json)) (k : String) (v : Json)
    (k' : String) (h : k' ≠ k) :
    dictGet (dictInsert m k v) k' = dictGet m k' := by
  induction m with
  | nil =>
    simp [dictInsert, dictGet, Ne.symm h]
  | cons hd tl ih =>
    obtain ⟨k0, v0⟩ := hd
    by_cases h0 : k0 = k
    · subst h0
      simp [dictInsert, dictGet, Ne.symm h]
    · simp only [dictInsert, if_neg h0]
      by_cases h1 : k0 = k'
      · simp [dictGet, h1]
      · simp [dictGet, h1, ih]

theorem mergeFoldl_get_of_notMem (update : List (String × Json)) :
    ∀ (ks : List String) (m : List (String × Json)) (k : String), k ∉ ks →
      dictGet (ks.foldl (mergeStep update) m) k = dictGet m k := by
  intro ks
  induction ks with
  | nil => intro m k _; rfl
  | cons k0 rest ih =>
    intro m k hk
    have hne : k ≠ k0 := fun h => hk (h ▸ List.mem_cons_self _ _)
    have hrest : k ∉ rest := fun h => hk (List.mem_cons_of_mem _ h)
    rw [List.foldl_cons, ih _ _ hrest]
    simp only [mergeStep]
    split
    · exact dictGet_insert_ne _ _ _ _ hne
    · rfl

theorem mergeFoldl_get_of_mem (update : List (String × Json)) :
    ∀ (ks : List String) (m : List (String × Json)) (k : String) (v : Json),
      ks.Nodup → k ∈ ks → dictGet update k = some v →
      dictGet (ks.foldl (mergeStep update) m) k = some v := by
  intro ks
  induction ks with
  | nil => intro m k v _ hk _; exact absurd hk (List.not_mem_nil _)
  | cons k0 rest ih =>
    intro m k v hnd hk hv
    rw [List.foldl_cons]
    rcases List.mem_cons.mp hk with h | h
    · subst h
      have hk0 : k ∉ rest := (List.nodup_cons.mp hnd).1
      rw [mergeFoldl_get_of_notMem update rest _ k hk0]
      simp only [mergeStep, hv]
      exact dictGet_insert_self _ _ _
    · exact ih _ k v (List.nodup_cons.mp hnd).2 h hv

/-! ## Claim theorems -/

/-- C1 (amended): merging an update into an existing VM record
preserves unchanged every field whose key is not in the code's
`owned_keys` set — the spec §3 list *plus* `mode`, `vmm_type` and
`all` — while the `measurements`, `errors` and `cpu_types` fields are
fully replaced by the update's values whenever the update specifies
them.  (The claim as frozen, which uses only the §3 list, fails: see
`c1_counterexample`.) -/
theorem c1_merge_owned_frame (existingKvs update : List (String × Json))
    (k : String) :
    (k ∉ owned_keys →
      dictGet (merge_vm_record_strict (.obj existingKvs) update) k =
        dictGet existingKvs k) ∧
    ((k = "measurements" ∨ k = "errors" ∨ k = "cpu_types") →
      ∀ v, dictGet update k = some v →
        dictGet (merge_vm_record_strict (.obj existingKvs) update) k = some v) := by
  constructor
  · intro hk
    exact mergeFoldl_get_of_notMem update owned_keys existingKvs k hk
  · intro hk v hv
    have hnd : owned_keys.Nodup := by decide
    have hmem : k ∈ owned_keys := by
      rcases hk with h | h | h <;> subst h <;> decide
    exact mergeFoldl_get_of_mem update owned_keys existingKvs k v hnd hmem hv

/-- Witness for C1's amended theorem: a caller-added `note` field
survives the merge while `measurements` is replaced wholesale (the old
`measurements` content disappears). -/
theorem c1_merge_owned_frame_witness :
    dictGet (merge_vm_record_strict
        (.obj [("note", Json.str "keep"),
               ("measurements", Json.obj [("old", Json.str "1")])])
        [("measurements", Json.obj []), ("errors", Json.obj [])]) "note" =
      some (Json.str "keep") ∧
    dictGet (merge_vm_record_strict
        (.obj [("note", Json.str "keep"),
               ("measurements", Json.obj [("old", Json.str "1")])])
        [("measurements", Json.obj []), ("errors", Json.obj [])]) "measurements" =
      some (Json.obj []) := by
  constructor
  · have h := (c1_merge_owned_frame
      [("note", Json.str "keep"), ("measurements", Json.obj [("old", Json.str "1")])]
      [("measurements", Json.obj []), ("errors", Json.obj [])] "note").1 (by decide)
    rw [h]
    rfl
  · exact (c1_merge_owned_frame
      [("note", Json.str "keep"), ("measurements", Json.obj [("old", Json.str "1")])]
      [("measurements", Json.obj []), ("errors", Json.obj [])] "measurements").2
      (Or.inl rfl) (Json.obj []) rfl

/-- C1 counterexample: the claim as frozen says every field outside
the §3 owned list is preserved, but `vmm_type` is outside that list
and the merge overwrites it when the update carries it (as every
update built by `main` does). -/
theorem c1_counterexample :
    "vmm_type" ∉ spec3_owned_keys ∧
    dictGet (merge_vm_record_strict (.obj [("vmm_type", Json.str "custom")])
      [("vmm_type", Json.str "QEMU")]) "vmm_type" = some (Json.str "QEMU") ∧
    dictGet [("vmm_type", Json.str "custom")] "vmm_type" =
      some (Json.str "custom") ∧
    some (Json.str "QEMU") ≠ some (Json.str "custom") := by
  refine ⟨by decide, rfl, rfl, ?_⟩
  intro h
  injection h with h1
  injection h1 with h2
  exact absurd h2 (by decide)

/-- C2: `write_json` never leaves the temporary file behind; whenever
the write raises, the target file is exactly what it was before; on
success the target holds the full serialization; and in every case a
reader of the target path sees either the old contents or the complete
new contents, never a partial write. -/
theorem c2_write_json_atomic (orig : Option String)
    (serialized halfWritten : String) (failAt : WriteFailure) :
    (write_json orig serialized halfWritten failAt).fs.tmp = none ∧
    ((write_json orig serialized halfWritten failAt).raised = true →
      (write_json orig serialized halfWritten failAt).fs.target = orig) ∧
    (failAt = .noFail →
      (write_json orig serialized halfWritten failAt).raised = false ∧
      (write_json orig serialized halfWritten failAt).fs.target = some serialized) ∧
    ((write_json orig serialized halfWritten failAt).fs.target = orig ∨
      (write_json orig serialized halfWritten failAt).fs.target = some serialized) := by
  cases failAt <;> simp [write_json]

/-- Witness for C2: a failure during the `json.dump` phase leaves the
original contents in place and removes the partial temporary file. -/
theorem c2_write_json_atomic_witness :
    (write_json (some "old") "new" "ne" .atDump).fs.tmp = none ∧
    (write_json (some "old") "new" "ne" .atDump).fs.target = some "old" :=
  ⟨(c2_write_json_atomic (some "old") "new" "ne" .atDump).1,
   (c2_write_json_atomic (some "old") "new" "ne" .atDump).2.1 rfl⟩

/-- C5: a string catalog entry is stripped first; an empty result
fails, a hex-pattern match yields `Sig` with the value lowercased, and
any other non-empty string yields `Type` with the stripped string. -/
theorem c5_string_normalization (s : String) :
    (pyStrip s = "" →
      normalize_cpu_spec (.str s) = .error emptyStringMsg) ∧
    (hexMatch (pyStrip s) = true →
      normalize_cpu_spec (.str s) = .ok (.sig (pyLower (pyStrip s)))) ∧
    (pyStrip s ≠ "" → hexMatch (pyStrip s) = false →
      normalize_cpu_spec (.str s) = .ok (.type (pyStrip s))) := by
  refine ⟨?_, ?_, ?_⟩
  · intro h
    simp [normalize_cpu_spec, h]
  · intro h
    have hne : pyStrip s ≠ "" := by
      intro he
      rw [he] at h
      exact absurd h (by decide)
    simp [normalize_cpu_spec, hne, h]
  · intro h1 h2
    simp [normalize_cpu_spec, h1, h2]

/-- Witness for C5 at the three concrete shapes. -/
theorem c5_string_normalization_witness :
    normalize_cpu_spec (.str "  0xAB ") = .ok (.sig "0xab") ∧
    normalize_cpu_spec (.str " EPYC-Milan ") = .ok (.type "EPYC-Milan") ∧
    normalize_cpu_spec (.str "   ") = .error emptyStringMsg := by
  refine ⟨?_, ?_, ?_⟩
  · rw [(c5_string_normalization "  0xAB ").2.1 (by rfl)]
    rfl
  · rw [(c5_string_normalization " EPYC-Milan ").2.2 (by decide) (by rfl)]
    rfl
  · exact (c5_string_normalization "   ").1 (by rfl)

/-- C10: on object entries the signature branch is checked first —
whenever a `vcpu_sig` binding is present its value alone determines
the result (any `sig` binding and any family/model/stepping triple in
the same object are ignored); with no `vcpu_sig` binding a `sig`
binding is used; and a successful signature branch always yields a
`Sig` spec. -/
theorem c10_sig_branch_precedence (kvs : List (String × Json)) (v : Json)
    (sp : CpuSpec) :
    (dictGet kvs "vcpu_sig" = some v →
      normalize_cpu_spec (.obj kvs) = normalize_sig_value v) ∧
    (dictGet kvs "vcpu_sig" = none → dictGet kvs "sig" = some v →
      normalize_cpu_spec (.obj kvs) = normalize_sig_value v) ∧
    (normalize_sig_value v = .ok sp → ∃ s, sp = CpuSpec.sig s) := by
  refine ⟨?_, ?_, ?_⟩
  · intro h
    simp [normalize_cpu_spec, sigKeyVal, h]
  · intro h1 h2
    simp [normalize_cpu_spec, sigKeyVal, h1, h2]
  · intro h
    unfold normalize_sig_value at h
    cases v with
    | int n =>
      by_cases hn : n < 0
      · simp [hn] at h
      · simp [hn] at h
        exact ⟨_, h.symm⟩
    | str s =>
      by_cases hs : hexMatch (pyStrip s)
      · simp [hs] at h
        exact ⟨_, h.symm⟩
      · simp [hs] at h
    | arr xs => simp at h
    | obj o => simp at h

/-- Witness for C10: an object carrying `vcpu_sig`, `sig` and a full
family/model/stepping triple normalizes from the `vcpu_sig` value. -/
theorem c10_sig_branch_precedence_witness :
    normalize_cpu_spec (.obj [("vcpu_sig", Json.str "0x0B"),
      ("sig", Json.str "0x0C"), ("family", Json.int 25),
      ("model", Json.int 1), ("stepping", Json.int 2)]) =
      .ok (.sig "0x0b") := by
  rw [(c10_sig_branch_precedence [("vcpu_sig", Json.str "0x0B"),
    ("sig", Json.str "0x0C"), ("family", Json.int 25),
    ("model", Json.int 1), ("stepping", Json.int 2)]
    (Json.str "0x0B") (.sig "0x0b")).1 rfl]
  rfl

/-- C6: object-entry normalization.  With a signature binding present:
a non-negative integer value yields `Sig` with its lowercase hex, a
negative integer fails, a string value matching the hex pattern yields
`Sig` lowercased, every other value fails.  With no signature binding:
all three of family/model/stepping present as non-negative integers
yield `Fms`; all three present with one non-integer or negative value
fail with that field's error; a missing key fails with the dict-shape
error.  Non-string non-object entries fail. -/
theorem c6_object_normalization (kvs : List (String × Json)) :
    (∀ n : Int, sigKeyVal kvs = some (.int n) →
      (0 ≤ n → normalize_cpu_spec (.obj kvs) = .ok (.sig (pyHex n.toNat))) ∧
      (n < 0 → normalize_cpu_spec (.obj kvs) = .error sigIntMsg)) ∧
    (∀ s : String, sigKeyVal kvs = some (.str s) →
      (hexMatch (pyStrip s) = true →
        normalize_cpu_spec (.obj kvs) = .ok (.sig (pyLower (pyStrip s)))) ∧
      (hexMatch (pyStrip s) = false →
        normalize_cpu_spec (.obj kvs) = .error sigValueMsg)) ∧
    (∀ v, sigKeyVal kvs = some v → (∀ n : Int, v ≠ .int n) →
      (∀ s, v ≠ .str s) →
      normalize_cpu_spec (.obj kvs) = .error sigValueMsg) ∧
    (sigKeyVal kvs = none →
      (∀ f m st : Int,
        dictGet kvs "family" = some (.int f) →
        dictGet kvs "model" = some (.int m) →
        dictGet kvs "stepping" = some (.int st) →
        0 ≤ f → 0 ≤ m → 0 ≤ st →
        normalize_cpu_spec (.obj kvs) = .ok (.fms f m st)) ∧
      ((dictHas kvs "family" && dictHas kvs "model" && dictHas kvs "stepping") = true →
        ∀ m, checkFms kvs = .error m →
          normalize_cpu_spec (.obj kvs) = .error m) ∧
      ((dictHas kvs "family" && dictHas kvs "model" && dictHas kvs "stepping") = false →
        normalize_cpu_spec (.obj kvs) = .error dictShapeMsg)) ∧
    (∀ k (v : Option Json), (∀ n : Int, v ≠ some (.int n)) →
      checkFmsField k v = .error (k ++ " must be an int")) ∧
    (∀ k (n : Int), n < 0 →
      checkFmsField k (some (.int n)) = .error (k ++ " must be non-negative")) ∧
    (∀ n : Int, normalize_cpu_spec (.int n) = .error entriesShapeMsg) ∧
    (∀ xs, normalize_cpu_spec (.arr xs) = .error entriesShapeMsg) := by
  refine ⟨?_, ?_, ?_, ?_, ?_, ?_, fun _ => rfl, fun _ => rfl⟩
  · intro n h
    constructor
    · intro h0
      simp [normalize_cpu_spec, h, normalize_sig_value, Int.not_lt.mpr h0]
    · intro hneg
      simp [normalize_cpu_spec, h, normalize_sig_value, hneg]
  · intro s h
    constructor
    · intro hh
      simp [normalize_cpu_spec, h, normalize_sig_value, hh]
    · intro hh
      simp [normalize_cpu_spec, h, normalize_sig_value, hh]
  · intro v h hni hns
    have he : normalize_cpu_spec (.obj kvs) = normalize_sig_value v := by
      simp [normalize_cpu_spec, h]
    rw [he]
    cases v with
    | int n => exact absurd rfl (hni n)
    | str s => exact absurd rfl (hns s)
    | arr xs => rfl
    | obj o => rfl
  · intro hnone
    refine ⟨?_, ?_, ?_⟩
    · intro f m st hf hm hst h0f h0m h0st
      have hhf : dictHas kvs "family" = true := by simp [dictHas, hf]
      have hhm : dictHas kvs "model" = true := by simp [dictHas, hm]
      have hhst : dictHas kvs "stepping" = true := by simp [dictHas, hst]
      simp [normalize_cpu_spec, hnone, hhf, hhm, hhst, checkFms, checkFmsField,
        hf, hm, hst, Int.not_lt.mpr h0f, Int.not_lt.mpr h0m, Int.not_lt.mpr h0st,
        bind, Except.bind, pure, Except.pure]
    · intro hhas m hchk
      simp [normalize_cpu_spec, hnone, hhas, hchk]
    · intro hhas
      simp [normalize_cpu_spec, hnone, hhas]
  · intro k v hv
    cases v with
    | none => rfl
    | some j =>
      cases j with
      | int n => exact absurd rfl (hv n)
      | str s => rfl
      | arr xs => rfl
      | obj o => rfl
  · intro k n hn
    simp [checkFmsField, hn]

/-- Witness for C6: signature-as-int, a full triple, a missing key and
a non-object entry, at concrete inputs. -/
theorem c6_object_normalization_witness :
    normalize_cpu_spec (.obj [("vcpu_sig", Json.int 162)]) = .ok (.sig "0xa2") ∧
    normalize_cpu_spec (.obj [("family", Json.int 25), ("model", Json.int 1),
      ("stepping", Json.int 2)]) = .ok (.fms 25 1 2) ∧
    normalize_cpu_spec (.obj [("family", Json.int 25), ("model", Json.int 1)]) =
      .error dictShapeMsg ∧
    normalize_cpu_spec (.int 3) = .error entriesShapeMsg := by
  refine ⟨?_, ?_, ?_, ?_⟩
  · rw [((c6_object_normalization [("vcpu_sig", Json.int 162)]).1 162 rfl).1
      (by decide)]
    rfl
  · exact (((c6_object_normalization [("family", Json.int 25),
      ("model", Json.int 1), ("stepping", Json.int 2)]).2.2.2.1 rfl).1)
      25 1 2 rfl rfl rfl (by decide) (by decide) (by decide)
  · exact ((c6_object_normalization [("family", Json.int 25),
      ("model", Json.int 1)]).2.2.2.1 rfl).2.2 rfl
  · exact (c6_object_normalization []).2.2.2.2.2.2.1 3

/-! ## Duplicate detection (C4) -/

theorem load_loop_firstDup :
    ∀ (entries : List Json) (ids seen : List String) (acc : List CpuSpec)
      (sid : String),
      normIds entries = .ok ids → firstDup ids seen = some sid →
      load_cpu_specs_loop entries seen acc = .error (dupSpecMsg sid) := by
  intro entries
  induction entries with
  | nil =>
    intro ids seen acc sid hids hdup
    simp [normIds] at hids
    subst hids
    simp [firstDup] at hdup
  | cons e rest ih =>
    intro ids seen acc sid hids hdup
    cases hn : normalize_cpu_spec e with
    | error msg => simp [normIds, hn, bind, Except.bind] at hids
    | ok sp =>
      cases hr : normIds rest with
      | error msg => simp [normIds, hn, hr, bind, Except.bind] at hids
      | ok ids0 =>
        simp [normIds, hn, hr, bind, Except.bind, pure, Except.pure] at hids
        subst hids
        rw [firstDup] at hdup
        by_cases hmem : spec_id sp ∈ seen
        · rw [if_pos hmem] at hdup
          injection hdup with hd
          subst hd
          simp [load_cpu_specs_loop, hn, bind, Except.bind, hmem]
        · rw [if_neg hmem] at hdup
          have hrec := ih ids0 (spec_id sp :: seen) (sp :: acc) sid hr hdup
          simp [load_cpu_specs_loop, hn, bind, Except.bind, hmem, hrec]

theorem firstDup_some_imp :
    ∀ (ids seen : List String) (sid : String), firstDup ids seen = some sid →
      ¬ ids.Nodup ∨ ∃ x ∈ ids, x ∈ seen := by
  intro ids
  induction ids with
  | nil => intro seen sid h; simp [firstDup] at h
  | cons x rest ih =>
    intro seen sid h
    rw [firstDup] at h
    by_cases hx : x ∈ seen
    · right
      exact ⟨x, List.mem_cons_self _ _, hx⟩
    · rw [if_neg hx] at h
      rcases ih _ _ h with hnd | ⟨y, hy, hys⟩
      · left
        intro hnod
        exact hnd (List.nodup_cons.mp hnod).2
      · rcases List.mem_cons.mp hys with he | hseen
        · left
          intro hnod
          exact (List.nodup_cons.mp hnod).1 (he ▸ hy)
        · right
          exact ⟨y, List.mem_cons_of_mem _ hy, hseen⟩

/-- C4: when every catalog entry normalizes and some identity string
repeats (the identity list is not duplicate-free), `load_cpu_specs`
fails with the duplicate-spec error naming the identity at the first
duplicate encountered, wherever the two entries sit and whatever
surface forms they use. -/
theorem c4_duplicate_rejected (entries : List Json) (ids : List String)
    (sid : String) (hids : normIds entries = .ok ids)
    (hdup : firstDup ids [] = some sid) :
    load_cpu_specs (.arr entries) = .error (dupSpecMsg sid) ∧ ¬ ids.Nodup := by
  constructor
  · cases entries with
    | nil =>
      simp [normIds] at hids
      subst hids
      simp [firstDup] at hdup
    | cons e rest =>
      simp only [load_cpu_specs, List.isEmpty_cons, Bool.false_eq_true,
        if_false]
      exact load_loop_firstDup (e :: rest) ids [] [] sid hids hdup
  · rcases firstDup_some_imp ids [] sid hdup with h | ⟨x, _, hx⟩
    · exact h
    · exact absurd hx (List.not_mem_nil x)

/-- Witness for C4: `{"vcpu_sig": "0x0A"}` and `"0x0a"` share the
identity `sig:0x0a`, and loading rejects the catalog naming it. -/
theorem c4_duplicate_rejected_witness :
    load_cpu_specs (.arr [Json.obj [("vcpu_sig", Json.str "0x0A")],
      Json.str "0x0a"]) = .error (dupSpecMsg "sig:0x0a") ∧
    ¬ (["sig:0x0a", "sig:0x0a"] : List String).Nodup :=
  c4_duplicate_rejected
    [Json.obj [("vcpu_sig", Json.str "0x0A")], Json.str "0x0a"]
    ["sig:0x0a", "sig:0x0a"] "sig:0x0a" (by rfl) (by rfl)

/-! ## Allowlist validation (C7) -/

theorem validate_loop_ok_iff (legal : List String) :
    ∀ (entries : List Json) (specs : List CpuSpec) (seen : List String),
      normSpecs entries = .ok specs →
      (specs.map spec_id ++ seen).Nodup →
      (validate_loop legal entries seen = .ok () ↔
        ∀ sp ∈ specs, ∀ n, sp = CpuSpec.type n → n ∈ legal) := by
  intro entries
  induction entries with
  | nil =>
    intro specs seen hs _
    simp [normSpecs] at hs
    subst hs
    simp [validate_loop]
  | cons e rest ih =>
    intro specs seen hs hnd
    cases hn : normalize_cpu_spec e with
    | error msg => simp [normSpecs, hn, bind, Except.bind] at hs
    | ok sp =>
      cases hr : normSpecs rest with
      | error msg => simp [normSpecs, hn, hr, bind, Except.bind] at hs
      | ok specs0 =>
        simp [normSpecs, hn, hr, bind, Except.bind, pure, Except.pure] at hs
        subst hs
        simp only [List.map_cons, List.cons_append] at hnd
        have hhead := (List.nodup_cons.mp hnd).1
        have htail := (List.nodup_cons.mp hnd).2
        have hnseen : spec_id sp ∉ seen := fun h =>
          hhead (List.mem_append_right _ h)
        have hnd2 : (specs0.map spec_id ++ (spec_id sp :: seen)).Nodup :=
          (List.Perm.nodup_iff List.perm_middle).mpr hnd
        simp only [validate_loop, hn, bind, Except.bind]
        rw [if_neg hnseen]
        cases sp with
        | type t =>
          dsimp only
          by_cases ht : t ∈ legal
          · rw [if_pos ht, ih specs0 _ hr hnd2]
            simp only [List.forall_mem_cons]
            constructor
            · intro h
              refine ⟨?_, h⟩
              intro n he
              injection he with h0
              exact h0 ▸ ht
            · intro h
              exact h.2
          · rw [if_neg ht]
            apply iff_of_false
            · simp
            · intro h
              exact ht (h (.type t) (List.mem_cons_self _ _) t rfl)
        | sig s =>
          dsimp only
          rw [ih specs0 _ hr hnd2]
          simp [List.forall_mem_cons]
        | fms f m st =>
          dsimp only
          rw [ih specs0 _ hr hnd2]
          simp [List.forall_mem_cons]

/-- C7: with a valid allowlist, whole-catalog validation succeeds iff
every `Type` spec's name is in the stripped, deduplicated allowlist
(case-sensitive string membership); `Sig` and `Fms` specs are never
checked against it.  An allowlist load failure fails the whole run,
and an allowlist that is empty or contains a non-string or
whitespace-only entry always fails to load. -/
theorem c7_allowlist (entries : List Json) (specs : List CpuSpec)
    (lj : Json) (legal : List String) (hne : entries ≠ [])
    (hspecs : normSpecs entries = .ok specs)
    (hnd : (specs.map spec_id).Nodup) :
    (load_legal_cpu_types lj = .ok legal →
      (validate_cpu_types_main (.arr entries) lj = .ok () ↔
        ∀ sp ∈ specs, ∀ n, sp = CpuSpec.type n → n ∈ legal)) ∧
    (∀ m, load_legal_cpu_types lj = .error m →
      validate_cpu_types_main (.arr entries) lj = .error m) ∧
    (∀ ls : List Json, (ls = [] ∨ ∃ v ∈ ls, badLegalEntry v = true) →
      ∃ m, load_legal_cpu_types (.arr ls) = .error m) := by
  have hie : entries.isEmpty = false := by
    cases entries with
    | nil => exact absurd rfl hne
    | cons _ _ => rfl
  refine ⟨?_, ?_, ?_⟩
  · intro hlegal
    simp only [validate_cpu_types_main, hie, Bool.false_eq_true, if_false,
      hlegal, bind, Except.bind]
    exact validate_loop_ok_iff legal entries specs [] hspecs (by simpa using hnd)
  · intro m hm
    simp [validate_cpu_types_main, hie, hm, bind, Except.bind]
  · intro ls hls
    rcases hls with rfl | ⟨v, hv, hbad⟩
    · exact ⟨legalListMsg, rfl⟩
    · refine ⟨legalBadMsg, ?_⟩
      have hie2 : ls.isEmpty = false := by
        cases ls with
        | nil => exact absurd hv (List.not_mem_nil v)
        | cons _ _ => rfl
      have hany : ls.any badLegalEntry = true :=
        List.any_eq_true.mpr ⟨v, hv, hbad⟩
      simp [load_legal_cpu_types, hie2, hany]

/-- Witness for C7: a legal `Type` together with a `Sig` passes
against the stripped allowlist, and a lone `Sig` passes against an
allowlist with no matching entry at all. -/
theorem c7_allowlist_witness :
    validate_cpu_types_main (.arr [Json.str "EPYC-Milan", Json.str "0x1"])
      (.arr [Json.str " EPYC-Milan "]) = .ok () ∧
    validate_cpu_types_main (.arr [Json.str "0x1"]) (.arr [Json.str "Z"]) =
      .ok () := by
  constructor
  · apply ((c7_allowlist [Json.str "EPYC-Milan", Json.str "0x1"]
      [.type "EPYC-Milan", .sig "0x1"] (.arr [Json.str " EPYC-Milan "])
      ["EPYC-Milan"] (by simp) (by rfl) (by decide)).1 (by rfl)).mpr
    intro sp hsp n he
    simp only [List.mem_cons, List.mem_singleton] at hsp
    rcases hsp with rfl | hsp
    · injection he with h0
      exact h0 ▸ (by decide : ("EPYC-Milan" : String) ∈ ["EPYC-Milan"])
    · rcases hsp with rfl | hsp
      · exact absurd he (by simp)
      · exact absurd hsp (List.not_mem_nil sp)
  · apply ((c7_allowlist [Json.str "0x1"] [.sig "0x1"] (.arr [Json.str "Z"])
      ["Z"] (by simp) (by rfl) (by decide)).1 (by rfl)).mpr
    intro sp hsp n he
    simp only [List.mem_singleton] at hsp
    subst hsp
    exact absurd he (by simp)

/-! ## The measurement invoker and the main loop (C3, C8, C9) -/

/-- C8: at attestation level 2 the kernel, initrd and append inputs
have no effect on the constructed command — two builds differing only
in those three values are identical — the command is exactly the base
command plus the CPU selector, and it contains none of the `--kernel`,
`--initrd`, `--append` flags (provided no free-form input is itself
literally one of those flag strings). -/
theorem c8_al2_ignores_boot_inputs (pyexe measure_py : String) (vcpus : Int)
    (sp : CpuSpec) (ovmf k1 i1 a1 k2 i2 a2 : String) :
    build_measure_cmd pyexe measure_py 2 vcpus sp ovmf k1 i1 a1 =
      build_measure_cmd pyexe measure_py 2 vcpus sp ovmf k2 i2 a2 ∧
    build_measure_cmd pyexe measure_py 2 vcpus sp ovmf k1 i1 a1 =
      .ok (baseCmd pyexe measure_py vcpus ovmf ++ selectorArgs sp) ∧
    (∀ flag, (flag = "--kernel" ∨ flag = "--initrd" ∨ flag = "--append") →
      flag ∉ [pyexe, measure_py, toString vcpus, ovmf] →
      flag ∉ selectorArgs sp →
      flag ∉ baseCmd pyexe measure_py vcpus ovmf ++ selectorArgs sp) := by
  refine ⟨rfl, rfl, ?_⟩
  intro flag hflag hnin hnsel hmem
  rcases List.mem_append.mp hmem with hb | hs
  · rcases hflag with rfl | rfl | rfl <;> simp_all [baseCmd]
  · exact hnsel hs

/-- Witness for C8 at a concrete spec and firmware. -/
theorem c8_al2_ignores_boot_inputs_witness :
    build_measure_cmd "python3" "measure.py" 2 4 (.type "EPYC-Milan")
      "OVMF.fd" "kern" "ird" "console=ttyS0" =
      build_measure_cmd "python3" "measure.py" 2 4 (.type "EPYC-Milan")
        "OVMF.fd" "" "" "" ∧
    "--kernel" ∉ baseCmd "python3" "measure.py" 4 "OVMF.fd" ++
      selectorArgs (.type "EPYC-Milan") :=
  ⟨(c8_al2_ignores_boot_inputs "python3" "measure.py" 4 (.type "EPYC-Milan")
      "OVMF.fd" "kern" "ird" "console=ttyS0" "" "" "").1,
   (c8_al2_ignores_boot_inputs "python3" "measure.py" 4 (.type "EPYC-Milan")
      "OVMF.fd" "kern" "ird" "console=ttyS0" "" "" "").2.2 "--kernel"
      (Or.inl rfl) (by decide) (by decide)⟩

theorem load_cpu_specs_loop_ok_length :
    ∀ (entries : List Json) (seen : List String) (acc l : List CpuSpec),
      load_cpu_specs_loop entries seen acc = .ok l →
      l.length = acc.length + entries.length := by
  intro entries
  induction entries with
  | nil =>
    intro seen acc l h
    simp [load_cpu_specs_loop] at h
    subst h
    simp
  | cons e rest ih =>
    intro seen acc l h
    cases hn : normalize_cpu_spec e with
    | error m => simp [load_cpu_specs_loop, hn, bind, Except.bind] at h
    | ok sp =>
      by_cases hmem : spec_id sp ∈ seen
      · simp [load_cpu_specs_loop, hn, bind, Except.bind, hmem] at h
      · simp only [load_cpu_specs_loop, hn, bind, Except.bind] at h
        rw [if_neg hmem] at h
        have := ih _ _ _ h
        simp only [List.length_cons] at this ⊢
        omega

theorem load_cpu_specs_ok_ne_nil (j : Json) (specs : List CpuSpec)
    (h : load_cpu_specs j = .ok specs) : specs ≠ [] := by
  cases j with
  | arr entries =>
    by_cases hie : entries.isEmpty
    · simp [load_cpu_specs, hie] at h
    · simp only [load_cpu_specs] at h
      rw [if_neg hie] at h
      cases entries with
      | nil => simp at hie
      | cons e rest =>
        have hl := load_cpu_specs_loop_ok_length (e :: rest) [] [] specs h
        intro hnil
        subst hnil
        simp at hl
  | str s => simp [load_cpu_specs] at h
  | int n => simp [load_cpu_specs] at h
  | obj kvs => simp [load_cpu_specs] at h

/-- C9: at attestation level 3 or 4 with a missing kernel or initrd
path, the run exits with status 2 (non-zero) having issued no
external-tool invocation, persisted nothing, and recorded nothing in
any errors map — the `die` raises `SystemExit`, which the per-spec
`except Exception` handler does not catch. -/
theorem c9_missing_kernel_hard_fail (oracle : List String → ToolResult)
    (pyexe : String) (out_json_contents : Option Json) (al : Int)
    (vm_title ovmf kernel initrd append : String) (vcpus : Int)
    (types_json : Json) (types_path_abs measure_py timestamp : String)
    (hal : al = 3 ∨ al = 4) (hki : kernel = "" ∨ initrd = "") :
    (expected_measurements_main oracle pyexe out_json_contents al vm_title
      ovmf kernel initrd append vcpus types_json types_path_abs measure_py
      timestamp).exitCode = 2 ∧
    (expected_measurements_main oracle pyexe out_json_contents al vm_title
      ovmf kernel initrd append vcpus types_json types_path_abs measure_py
      timestamp).exitCode ≠ 0 ∧
    (expected_measurements_main oracle pyexe out_json_contents al vm_title
      ovmf kernel initrd append vcpus types_json types_path_abs measure_py
      timestamp).invocations = [] ∧
    (expected_measurements_main oracle pyexe out_json_contents al vm_title
      ovmf kernel initrd append vcpus types_json types_path_abs measure_py
      timestamp).persisted = none ∧
    (expected_measurements_main oracle pyexe out_json_contents al vm_title
      ovmf kernel initrd append vcpus types_json types_path_abs measure_py
      timestamp).errors = none := by
  have hbuild : ∀ sp : CpuSpec,
      build_measure_cmd pyexe measure_py al vcpus sp ovmf kernel initrd append =
        .error alRequireMsg := by
    intro sp
    have h2 : al ≠ 2 := by rcases hal with rfl | rfl <;> decide
    simp [build_measure_cmd, h2, hal, hki]
  cases hload : load_cpu_specs types_json with
  | error m => simp [expected_measurements_main, hload]
  | ok specs =>
    obtain ⟨sp, rest, rfl⟩ : ∃ sp rest, specs = sp :: rest := by
      cases specs with
      | nil => exact absurd rfl (load_cpu_specs_ok_ne_nil _ _ hload)
      | cons a l => exact ⟨a, l, rfl⟩
    have hrun : run_measure oracle pyexe measure_py al vcpus sp ovmf kernel
        initrd append = .fatal alRequireMsg := by
      simp [run_measure, hbuild sp]
    simp [expected_measurements_main, hload, mainLoop, hrun]

/-- Witness for C9: level 3 with an empty kernel path. -/
theorem c9_missing_kernel_hard_fail_witness :
    (expected_measurements_main (fun _ => ⟨0, "", ""⟩) "python3" none 3 "vm1"
      "OVMF.fd" "" "ird" "args" 4 (.arr [Json.str "EPYC"]) "/abs" "m.py"
      "TS").exitCode = 2 ∧
    (expected_measurements_main (fun _ => ⟨0, "", ""⟩) "python3" none 3 "vm1"
      "OVMF.fd" "" "ird" "args" 4 (.arr [Json.str "EPYC"]) "/abs" "m.py"
      "TS").exitCode ≠ 0 ∧
    (expected_measurements_main (fun _ => ⟨0, "", ""⟩) "python3" none 3 "vm1"
      "OVMF.fd" "" "ird" "args" 4 (.arr [Json.str "EPYC"]) "/abs" "m.py"
      "TS").invocations = [] ∧
    (expected_measurements_main (fun _ => ⟨0, "", ""⟩) "python3" none 3 "vm1"
      "OVMF.fd" "" "ird" "args" 4 (.arr [Json.str "EPYC"]) "/abs" "m.py"
      "TS").persisted = none ∧
    (expected_measurements_main (fun _ => ⟨0, "", ""⟩) "python3" none 3 "vm1"
      "OVMF.fd" "" "ird" "args" 4 (.arr [Json.str "EPYC"]) "/abs" "m.py"
      "TS").errors = none :=
  c9_missing_kernel_hard_fail (fun _ => ⟨0, "", ""⟩) "python3" none 3 "vm1"
    "OVMF.fd" "" "ird" "args" 4 (.arr [Json.str "EPYC"]) "/abs" "m.py" "TS"
    (Or.inl rfl) (Or.inl rfl)

theorem build_measure_cmd_ok (pyexe measure_py : String) (al vcpus : Int)
    (ovmf kernel initrd append : String)
    (hal : al = 2 ∨ ((al = 3 ∨ al = 4) ∧ kernel ≠ "" ∧ initrd ≠ ""))
    (sp : CpuSpec) :
    build_measure_cmd pyexe measure_py al vcpus sp ovmf kernel initrd append =
      .ok (fullCmd pyexe measure_py al vcpus sp ovmf kernel initrd append) := by
  rcases hal with rfl | ⟨h34, hk, hi⟩
  · simp [build_measure_cmd, fullCmd]
  · have h2 : al ≠ 2 := by rcases h34 with rfl | rfl <;> decide
    simp [build_measure_cmd, fullCmd, h2, h34, not_or.mpr ⟨hk, hi⟩,
      List.append_assoc]

theorem mainLoop_eq_collect (oracle : List String → ToolResult)
    (pyexe measure_py : String) (al vcpus : Int)
    (ovmf kernel initrd append : String)
    (hal : al = 2 ∨ ((al = 3 ∨ al = 4) ∧ kernel ≠ "" ∧ initrd ≠ "")) :
    ∀ (specs : List CpuSpec) (meas errs : List (String × Json))
      (invs : List (List String)),
      mainLoop oracle pyexe measure_py al vcpus ovmf kernel initrd append
        specs meas errs invs =
      (.ok (collectOutcomes oracle pyexe measure_py al vcpus ovmf kernel
          initrd append specs (meas, errs)),
       invs ++ specs.map (fun sp =>
         fullCmd pyexe measure_py al vcpus sp ovmf kernel initrd append)) := by
  intro specs
  induction specs with
  | nil =>
    intro meas errs invs
    simp [mainLoop, collectOutcomes]
  | cons sp rest ih =>
    intro meas errs invs
    have hb := build_measure_cmd_ok pyexe measure_py al vcpus ovmf kernel
      initrd append hal sp
    by_cases hrc : (oracle (fullCmd pyexe measure_py al vcpus sp ovmf kernel
        initrd append)).returncode = 0
    · simp [mainLoop, run_measure, hb, hrc, collectOutcomes, ih,
        List.append_assoc]
    · simp [mainLoop, run_measure, hb, hrc, collectOutcomes, ih,
        List.append_assoc]

theorem collect_errs_frame (oracle : List String → ToolResult)
    (pyexe measure_py : String) (al vcpus : Int)
    (ovmf kernel initrd append : String) :
    ∀ (specs : List CpuSpec) (meas errs : List (String × Json)) (lab : String),
      lab ∉ specs.map spec_id_human →
      dictGet (collectOutcomes oracle pyexe measure_py al vcpus ovmf kernel
        initrd append specs (meas, errs)).2 lab = dictGet errs lab := by
  intro specs
  induction specs with
  | nil => intro meas errs lab _; rfl
  | cons sp rest ih =>
    intro meas errs lab hlab
    simp only [List.map_cons, List.mem_cons, not_or] at hlab
    obtain ⟨h1, h2⟩ := hlab
    by_cases hrc : (oracle (fullCmd pyexe measure_py al vcpus sp ovmf kernel
        initrd append)).returncode = 0
    · simp only [collectOutcomes, hrc, if_pos]
      exact ih _ _ _ (by simpa using h2)
    · simp only [collectOutcomes, hrc, if_neg, if_false]
      rw [ih _ _ _ (by simpa using h2)]
      exact dictGet_insert_ne _ _ _ _ h1

theorem collect_errs_mem (oracle : List String → ToolResult)
    (pyexe measure_py : String) (al vcpus : Int)
    (ovmf kernel initrd append : String) :
    ∀ (specs : List CpuSpec) (meas errs : List (String × Json)) (sp : CpuSpec),
      (specs.map spec_id_human).Nodup → sp ∈ specs →
      (oracle (fullCmd pyexe measure_py al vcpus sp ovmf kernel initrd
        append)).returncode ≠ 0 →
      dictGet (collectOutcomes oracle pyexe measure_py al vcpus ovmf kernel
        initrd append specs (meas, errs)).2 (spec_id_human sp) =
      some (.str (measureFailMsg al sp
        (oracle (fullCmd pyexe measure_py al vcpus sp ovmf kernel initrd
          append)).returncode
        (oracle (fullCmd pyexe measure_py al vcpus sp ovmf kernel initrd
          append)).stderr)) := by
  intro specs
  induction specs with
  | nil =>
    intro meas errs sp _ hmem _
    exact absurd hmem (List.not_mem_nil sp)
  | cons sp0 rest ih =>
    intro meas errs sp hnd hmem hrc
    have hcons : (spec_id_human sp0 :: rest.map spec_id_human).Nodup := by
      simpa using hnd
    have hnd1 : spec_id_human sp0 ∉ rest.map spec_id_human :=
      (List.nodup_cons.mp hcons).1
    have hnd2 : (rest.map spec_id_human).Nodup :=
      (List.nodup_cons.mp hcons).2
    rcases List.mem_cons.mp hmem with rfl | hmem0
    · simp only [collectOutcomes, hrc, if_neg, if_false]
      rw [collect_errs_frame oracle pyexe measure_py al vcpus ovmf kernel
        initrd append rest _ _ _ hnd1]
      exact dictGet_insert_self _ _ _
    · by_cases hrc0 : (oracle (fullCmd pyexe measure_py al vcpus sp0 ovmf
          kernel initrd append)).returncode = 0
      · simp only [collectOutcomes, hrc0, if_pos]
        exact ih _ _ sp hnd2 hmem0 hrc
      · simp only [collectOutcomes, hrc0, if_neg, if_false]
        exact ih _ _ sp hnd2 hmem0 hrc

/-- C3: when the catalog loads and command construction cannot `die`
(level 2, or level 3/4 with kernel and initrd supplied), then for any
behavior of the external tool the run issues one invocation per spec,
exits with status 0, and persists the store; every spec whose
invocation exits non-zero gets the failure message recorded under its
label in the `errors` map.  (The per-spec labels are assumed distinct,
as they are whenever the identity strings are.) -/
theorem c3_soft_failures_isolated (oracle : List String → ToolResult)
    (pyexe : String) (out_json_contents : Option Json) (al : Int)
    (vm_title ovmf kernel initrd append : String) (vcpus : Int)
    (types_json : Json) (types_path_abs measure_py timestamp : String)
    (specs : List CpuSpec)
    (hspecs : load_cpu_specs types_json = .ok specs)
    (hal : al = 2 ∨ ((al = 3 ∨ al = 4) ∧ kernel ≠ "" ∧ initrd ≠ ""))
    (hlab : (specs.map spec_id_human).Nodup) :
    (expected_measurements_main oracle pyexe out_json_contents al vm_title
      ovmf kernel initrd append vcpus types_json types_path_abs measure_py
      timestamp).exitCode = 0 ∧
    (expected_measurements_main oracle pyexe out_json_contents al vm_title
      ovmf kernel initrd append vcpus types_json types_path_abs measure_py
      timestamp).invocations.length = specs.length ∧
    ((expected_measurements_main oracle pyexe out_json_contents al vm_title
      ovmf kernel initrd append vcpus types_json types_path_abs measure_py
      timestamp).persisted).isSome = true ∧
    (∀ sp ∈ specs,
      (oracle (fullCmd pyexe measure_py al vcpus sp ovmf kernel initrd
        append)).returncode ≠ 0 →
      ∃ errs, (expected_measurements_main oracle pyexe out_json_contents al
          vm_title ovmf kernel initrd append vcpus types_json types_path_abs
          measure_py timestamp).errors = some errs ∧
        dictGet errs (spec_id_human sp) =
          some (.str (measureFailMsg al sp
            (oracle (fullCmd pyexe measure_py al vcpus sp ovmf kernel initrd
              append)).returncode
            (oracle (fullCmd pyexe measure_py al vcpus sp ovmf kernel initrd
              append)).stderr))) := by
  have hm := mainLoop_eq_collect oracle pyexe measure_py al vcpus ovmf kernel
    initrd append hal specs [] [] []
  obtain ⟨meas, errs, hc⟩ : ∃ a b,
      collectOutcomes oracle pyexe measure_py al vcpus ovmf kernel initrd
        append specs ([], []) = (a, b) := ⟨_, _, rfl⟩
  rw [hc] at hm
  refine ⟨?_, ?_, ?_, ?_⟩
  · simp [expected_measurements_main, hspecs, hm]
  · simp [expected_measurements_main, hspecs, hm]
  · simp [expected_measurements_main, hspecs, hm]
  · intro sp hsp hrc
    refine ⟨errs, ?_, ?_⟩
    · simp [expected_measurements_main, hspecs, hm]
    · have hh := collect_errs_mem oracle pyexe measure_py al vcpus ovmf
        kernel initrd append specs [] [] sp hlab hsp hrc
      rw [hc] at hh
      exact hh

/-- Witness for C3: a two-entry catalog against a tool that always
fails with exit code 1 — both invocations are issued, the run exits 0,
persists, and records the first spec's failure message. -/
theorem c3_soft_failures_isolated_witness :
    (expected_measurements_main (fun _ => ⟨1, "", "boom"⟩) "python3" none 2
      "vm1" "OVMF.fd" "" "" "" 4 (.arr [Json.str "A", Json.str "B"]) "/abs"
      "m.py" "TS").exitCode = 0 ∧
    (expected_measurements_main (fun _ => ⟨1, "", "boom"⟩) "python3" none 2
      "vm1" "OVMF.fd" "" "" "" 4 (.arr [Json.str "A", Json.str "B"]) "/abs"
      "m.py" "TS").invocations.length = 2 ∧
    ∃ errs, (expected_measurements_main (fun _ => ⟨1, "", "boom"⟩) "python3"
        none 2 "vm1" "OVMF.fd" "" "" "" 4
        (.arr [Json.str "A", Json.str "B"]) "/abs" "m.py" "TS").errors =
      some errs ∧
      dictGet errs "A" = some (.str (measureFailMsg 2 (.type "A") 1 "boom")) := by
  have h := c3_soft_failures_isolated (fun _ => ⟨1, "", "boom"⟩) "python3"
    none 2 "vm1" "OVMF.fd" "" "" "" 4 (.arr [Json.str "A", Json.str "B"])
    "/abs" "m.py" "TS" [.type "A", .type "B"] (by rfl) (Or.inl rfl) (by decide)
  refine ⟨h.1, h.2.1, ?_⟩
  have h4 := h.2.2.2 (.type "A") (by simp) (by decide)
  simpa using h4
end AlmanSpec
